import Mathlib

/-!
# Verification of the `register-user` lambda handler

Shallow embedding of
`apps/backend/lambdas/identity/http/register-user/src/http_handler.rs`.

Modelling conventions:
* JSON parsing (`serde_json::from_slice`) is modelled by passing the parse
  outcome as an `Option RegisterUserRequest` (`none` = parse failure).
* Rust `String::len` counts UTF-8 bytes, so it is embedded as
  `String.utf8ByteSize`; `str::contains(char)` tests whether some character
  of the string equals the given one, embedded over `String.data`.
* The process environment variable `USER_POOL_ID` is an `Option String`
  input; `Uuid::new_v4().to_string()` is an oracle-supplied `String` input.
* The AWS Cognito client is an oracle `ProviderCall → Except String Unit`;
  the handler additionally returns the list of provider calls it issued, in
  order, so that sequencing/absence claims can be stated.
* The `AttributeType::builder().name(..).value(..).build()?` calls in the
  source can only fail when `name` is unset; every call site sets it, so the
  attribute construction is embedded as total.
* An HTTP response is kept structured (status, content-type header, body as
  the serialized Rust struct) rather than as a JSON string.
-/

namespace RegisterUser

/-- Rust `struct RegisterUserRequest` (`#[derive(Deserialize)]`):
`user_role` is `Option<String>` and therefore optional in the JSON body. -/
structure RegisterUserRequest where
  email : String
  password : String
  tenant_id : String
  user_role : Option String
deriving DecidableEq

/-- Rust `struct RegisterUserResponse` (`#[derive(Serialize)]`). -/
structure RegisterUserResponse where
  user_id : String
  message : String
deriving DecidableEq

/-- Rust `struct ErrorResponse` (`#[derive(Serialize)]`). -/
structure ErrorResponse where
  error : String
  message : String
deriving DecidableEq

/-- Body of an HTTP response produced by the handler: the JSON serialization
of either a `RegisterUserResponse` or an `ErrorResponse`. -/
inductive ResponseBody where
  | success (r : RegisterUserResponse)
  | error (e : ErrorResponse)
deriving DecidableEq

/-- An HTTP response as built by `Response::builder()` in the source:
status code, the single `content-type` header it sets, and the body. -/
structure Response where
  status : Nat
  contentType : String
  body : ResponseBody
deriving DecidableEq

/-- `aws_sdk_cognitoidentityprovider::types::DeliveryMediumType`. -/
inductive DeliveryMediumType where
  | email
  | sms
deriving DecidableEq

/-- `aws_sdk_cognitoidentityprovider::types::MessageActionType`. -/
inductive MessageActionType where
  | resend
  | suppress
deriving DecidableEq

/-- `aws_sdk_cognitoidentityprovider::types::AttributeType`: a name/value
attribute pair passed to `admin_create_user`. -/
structure AttributeType where
  name : String
  value : String
deriving DecidableEq

/-- One request sent to the identity provider.  The source only ever issues
`admin_create_user` and `admin_set_user_password`; `adminDeleteUser` is the
provider's rollback operation, present in the model so that the absence of
any compensating call is a non-vacuous statement. -/
inductive ProviderCall where
  | adminCreateUser (userPoolId username : String)
      (userAttributes : List AttributeType)
      (desiredDeliveryMediums : List DeliveryMediumType)
      (temporaryPassword : String) (messageAction : MessageActionType)
  | adminSetUserPassword (userPoolId username password : String)
      (permanent : Bool)
  | adminDeleteUser (userPoolId username : String)
deriving DecidableEq

/-- Whether a provider call is an `admin_set_user_password` request. -/
def ProviderCall.isSetPassword : ProviderCall → Bool
  | .adminSetUserPassword _ _ _ _ => true
  | _ => false

/-- Whether a provider call is an `admin_delete_user` (rollback) request. -/
def ProviderCall.isDeleteUser : ProviderCall → Bool
  | .adminDeleteUser _ _ => true
  | _ => false

/-- The `username` argument carried by a provider call. -/
def ProviderCall.username : ProviderCall → String
  | .adminCreateUser _ u _ _ _ _ => u
  | .adminSetUserPassword _ u _ _ => u
  | .adminDeleteUser _ u => u

/-- The Cognito client, as an oracle deciding the outcome of each request
(`Except.error` models an SDK error, carrying its rendered message). -/
structure CognitoClient where
  respond : ProviderCall → Except String Unit

/-- The `admin_create_user` request built in `register_user_in_cognito`:
username is the generated user id, attributes are `email`,
`email_verified=false`, `custom:tenant_id`, `custom:user_role`, desired
delivery medium `Email`, temporary password, and `MessageActionType::Suppress`. -/
def createUserCall (user_pool_id user_id email _password tenant_id user_role : String) :
    ProviderCall :=
  .adminCreateUser user_pool_id user_id
    [⟨"email", email⟩, ⟨"email_verified", "false"⟩,
     ⟨"custom:tenant_id", tenant_id⟩, ⟨"custom:user_role", user_role⟩]
    [.email] _password .suppress

/-- The `admin_set_user_password` request built in `register_user_in_cognito`:
same username and password, `permanent(true)`. -/
def setPasswordCall (user_pool_id user_id _password : String) : ProviderCall :=
  .adminSetUserPassword user_pool_id user_id _password true

/-- Embedding of `register_user_in_cognito`: issue `admin_create_user`; on
success issue `admin_set_user_password`; the first error is propagated via
`?`.  The second component is the ordered list of provider calls issued. -/
def register_user_in_cognito (client : CognitoClient)
    (user_pool_id user_id email _password tenant_id user_role : String) :
    Except String Unit × List ProviderCall :=
  let cc := createUserCall user_pool_id user_id email _password tenant_id user_role
  match client.respond cc with
  | .error e => (.error e, [cc])
  | .ok _ =>
    let sc := setPasswordCall user_pool_id user_id _password
    match client.respond sc with
    | .error e => (.error e, [cc, sc])
    | .ok _ => (.ok (), [cc, sc])

/-- Embedding of `create_success_response`: status 201,
`content-type: application/json`, serialized data. -/
def create_success_response (data : RegisterUserResponse) : Response :=
  ⟨201, "application/json", .success data⟩

/-- Embedding of `create_error_response`. -/
def create_error_response (status : Nat) (error_code message : String) : Response :=
  ⟨status, "application/json", .error ⟨error_code, message⟩⟩

/-- The success message of the 201 response body. -/
def successMessage : String :=
  "User registered successfully. Please check your email for verification."

/-- Embedding of `function_handler`:
`body` is the outcome of `serde_json::from_slice` on the event body,
`env_user_pool_id` the value of the `USER_POOL_ID` environment variable,
`uuid` the string produced by `Uuid::new_v4().to_string()`.  The result is
the handler's `Result` (`Except.error` models returning `Err` from the
Rust function, as the `?` on the missing-variable case does) together with
the ordered list of provider calls issued. -/
def function_handler (body : Option RegisterUserRequest)
    (env_user_pool_id : Option String) (uuid : String) (client : CognitoClient) :
    Except String Response × List ProviderCall :=
  match body with
  | none =>
    (.ok (create_error_response 400 "INVALID_REQUEST" "Invalid request body"), [])
  | some request =>
    if request.email.data.isEmpty || request.password.data.isEmpty
        || request.tenant_id.data.isEmpty then
      (.ok (create_error_response 400 "VALIDATION_ERROR"
        "Email, password, and tenant_id are required"), [])
    else if !(request.email.data.contains '@') then
      (.ok (create_error_response 400 "VALIDATION_ERROR" "Invalid email format"), [])
    else if request.password.utf8ByteSize < 8 then
      (.ok (create_error_response 400 "VALIDATION_ERROR"
        "Password must be at least 8 characters long"), [])
    else
      match env_user_pool_id with
      | none => (.error "USER_POOL_ID environment variable not set", [])
      | some user_pool_id =>
        let user_id := uuid
        match register_user_in_cognito client user_pool_id user_id
            request.email request.password request.tenant_id
            (request.user_role.getD "User") with
        | (.ok _, trace) =>
          (.ok (create_success_response ⟨user_id, successMessage⟩), trace)
        | (.error e, trace) =>
          (.ok (create_error_response 500 "REGISTRATION_FAILED" e), trace)

/-- The conjunction of the three semantic validation checks of
`function_handler`, in source form: all of email/password/tenant_id
non-empty, email contains `'@'`, and the password is at least 8 bytes. -/
def passesValidation (r : RegisterUserRequest) : Bool :=
  !(r.email.data.isEmpty || r.password.data.isEmpty || r.tenant_id.data.isEmpty)
  && r.email.data.contains '@'
  && !(decide (r.password.utf8ByteSize < 8))

/-- A client whose every request succeeds (used for concrete evaluations). -/
def okClient : CognitoClient := ⟨fun _ => .ok ()⟩

/-- A client whose every request fails (used for concrete evaluations). -/
def failClient : CognitoClient := ⟨fun _ => .error "provider failure"⟩

/-- A client that accepts `admin_create_user` but rejects
`admin_set_user_password` (used for concrete evaluations). -/
def setFailClient : CognitoClient :=
  ⟨fun c => if c.isSetPassword then .error "set password failure" else .ok ()⟩

/-- Helper: on a request passing all three validation checks, the handler
reduces to the environment lookup followed by the provisioning match. -/
theorem function_handler_valid (r : RegisterUserRequest) (env : Option String)
    (uuid : String) (client : CognitoClient) (hv : passesValidation r = true) :
    function_handler (some r) env uuid client =
      match env with
      | none => (.error "USER_POOL_ID environment variable not set", [])
      | some user_pool_id =>
        match register_user_in_cognito client user_pool_id uuid r.email r.password
            r.tenant_id (r.user_role.getD "User") with
        | (.ok _, trace) =>
          (.ok (create_success_response ⟨uuid, successMessage⟩), trace)
        | (.error e, trace) =>
          (.ok (create_error_response 500 "REGISTRATION_FAILED" e), trace) := by
  simp only [passesValidation, Bool.and_eq_true, Bool.not_eq_true',
    decide_eq_false_iff_not] at hv
  obtain ⟨⟨h1, h2⟩, h3⟩ := hv
  have h2m : '@' ∈ r.email.data := by simpa using h2
  simp [function_handler, h1, h2m, h3]

/-- Helper: the provisioning call list always starts with the
`admin_create_user` request, followed by the `admin_set_user_password`
request exactly when the first call succeeded. -/
theorem register_user_in_cognito_trace (client : CognitoClient)
    (pool uid email pw tid role : String) :
    (register_user_in_cognito client pool uid email pw tid role).2 =
      createUserCall pool uid email pw tid role ::
        (match client.respond (createUserCall pool uid email pw tid role) with
         | .ok _ => [setPasswordCall pool uid pw]
         | .error _ => []) := by
  unfold register_user_in_cognito
  cases hc : client.respond (createUserCall pool uid email pw tid role) with
  | error e => simp [hc]
  | ok u =>
    cases hs : client.respond (setPasswordCall pool uid pw) <;> simp [hc, hs]

/-- Helper: on a valid request with the pool id present, the handler's call
list is the `admin_create_user` request followed by the
`admin_set_user_password` request exactly when the first call succeeded. -/
theorem function_handler_valid_trace (pool uuid : String) (client : CognitoClient)
    (r : RegisterUserRequest) (hv : passesValidation r = true) :
    (function_handler (some r) (some pool) uuid client).2 =
      createUserCall pool uuid r.email r.password r.tenant_id (r.user_role.getD "User") ::
        (match client.respond (createUserCall pool uuid r.email r.password
            r.tenant_id (r.user_role.getD "User")) with
         | .ok _ => [setPasswordCall pool uuid r.password]
         | .error _ => []) := by
  rw [function_handler_valid r (some pool) uuid client hv]
  dsimp only
  have htrace := register_user_in_cognito_trace client pool uuid r.email r.password
    r.tenant_id (r.user_role.getD "User")
  rcases hreg : register_user_in_cognito client pool uuid r.email r.password
      r.tenant_id (r.user_role.getD "User") with ⟨res, tr⟩
  rw [hreg] at htrace
  cases res <;> exact htrace

/-- Helper: `register_user_in_cognito` when `admin_create_user` fails. -/
theorem register_user_in_cognito_create_error (client : CognitoClient)
    (pool uid email pw tid role e : String)
    (hf : client.respond (createUserCall pool uid email pw tid role) = .error e) :
    register_user_in_cognito client pool uid email pw tid role =
      (.error e, [createUserCall pool uid email pw tid role]) := by
  unfold register_user_in_cognito
  simp [hf]

/-- Helper: `register_user_in_cognito` when `admin_create_user` succeeds and
`admin_set_user_password` fails. -/
theorem register_user_in_cognito_set_error (client : CognitoClient)
    (pool uid email pw tid role e : String)
    (hc : client.respond (createUserCall pool uid email pw tid role) = .ok ())
    (hs : client.respond (setPasswordCall pool uid pw) = .error e) :
    register_user_in_cognito client pool uid email pw tid role =
      (.error e, [createUserCall pool uid email pw tid role, setPasswordCall pool uid pw]) := by
  unfold register_user_in_cognito
  simp [hc, hs]

/-- Helper: `register_user_in_cognito` when both provider calls succeed. -/
theorem register_user_in_cognito_ok (client : CognitoClient)
    (pool uid email pw tid role : String)
    (hc : client.respond (createUserCall pool uid email pw tid role) = .ok ())
    (hs : client.respond (setPasswordCall pool uid pw) = .ok ()) :
    register_user_in_cognito client pool uid email pw tid role =
      (.ok (), [createUserCall pool uid email pw tid role, setPasswordCall pool uid pw]) := by
  unfold register_user_in_cognito
  simp [hc, hs]

/-- Claim C1: the handler applies the validation checks in this exact order
with first failure winning: (a) unparseable body gives 400 INVALID_REQUEST;
otherwise (b) an empty email, password or tenant_id gives 400
VALIDATION_ERROR; otherwise (c) an email without '@' gives 400
VALIDATION_ERROR; otherwise (d) a too-short password gives 400
VALIDATION_ERROR; no later check's error is returned when an earlier check
fails (each case holds for every environment, uuid and client). -/
theorem c1_validation_order (env : Option String) (uuid : String) (client : CognitoClient) :
    ((function_handler none env uuid client).1 =
      .ok (create_error_response 400 "INVALID_REQUEST" "Invalid request body"))
    ∧ (∀ r : RegisterUserRequest,
        (r.email.data.isEmpty || r.password.data.isEmpty || r.tenant_id.data.isEmpty) = true →
        (function_handler (some r) env uuid client).1 =
          .ok (create_error_response 400 "VALIDATION_ERROR"
            "Email, password, and tenant_id are required"))
    ∧ (∀ r : RegisterUserRequest,
        (r.email.data.isEmpty || r.password.data.isEmpty || r.tenant_id.data.isEmpty) = false →
        r.email.data.contains '@' = false →
        (function_handler (some r) env uuid client).1 =
          .ok (create_error_response 400 "VALIDATION_ERROR" "Invalid email format"))
    ∧ (∀ r : RegisterUserRequest,
        (r.email.data.isEmpty || r.password.data.isEmpty || r.tenant_id.data.isEmpty) = false →
        r.email.data.contains '@' = true →
        r.password.utf8ByteSize < 8 →
        (function_handler (some r) env uuid client).1 =
          .ok (create_error_response 400 "VALIDATION_ERROR"
            "Password must be at least 8 characters long")) := by
  refine ⟨rfl, ?_, ?_, ?_⟩
  · intro r h1
    simp [function_handler, h1]
  · intro r h1 h2
    have h2n : '@' ∉ r.email.data := by simpa using h2
    simp [function_handler, h1, h2n]
  · intro r h1 h2 h3
    have h2m : '@' ∈ r.email.data := by simpa using h2
    simp [function_handler, h1, h2m, h3]

/-- Witness for C1 at concrete inputs exercising each validation failure. -/
theorem c1_validation_order_witness :
    ((function_handler (some ⟨"", "password123", "t1", none⟩) none "uid" okClient).1 =
      .ok (create_error_response 400 "VALIDATION_ERROR"
        "Email, password, and tenant_id are required"))
    ∧ ((function_handler (some ⟨"nomail", "password123", "t1", none⟩) none "uid" okClient).1 =
      .ok (create_error_response 400 "VALIDATION_ERROR" "Invalid email format"))
    ∧ ((function_handler (some ⟨"a@b.com", "short", "t1", none⟩) none "uid" okClient).1 =
      .ok (create_error_response 400 "VALIDATION_ERROR"
        "Password must be at least 8 characters long")) :=
  ⟨(c1_validation_order none "uid" okClient).2.1
      ⟨"", "password123", "t1", none⟩ (by decide),
   (c1_validation_order none "uid" okClient).2.2.1
      ⟨"nomail", "password123", "t1", none⟩ (by decide) (by decide),
   (c1_validation_order none "uid" okClient).2.2.2
      ⟨"a@b.com", "short", "t1", none⟩ (by decide) (by decide) (by decide)⟩

/-- Claim C2: on passing validation (pool id present), the handler issues
`admin_create_user` with the generated uuid as username, attributes email
(from the request), email_verified="false", tenant_id and user_role, the
request password as temporary password, delivery medium Email and message
action Suppress; and it issues `admin_set_user_password` with the same
password and permanent=true exactly when that first call succeeds, after it. -/
theorem c2_provisioning_calls (pool uuid : String) (client : CognitoClient)
    (r : RegisterUserRequest) (hv : passesValidation r = true) :
    (function_handler (some r) (some pool) uuid client).2 =
      createUserCall pool uuid r.email r.password r.tenant_id (r.user_role.getD "User") ::
        (match client.respond (createUserCall pool uuid r.email r.password
            r.tenant_id (r.user_role.getD "User")) with
         | .ok _ => [setPasswordCall pool uuid r.password]
         | .error _ => []) :=
  function_handler_valid_trace pool uuid client r hv

/-- Witness for C2 at a concrete valid request and succeeding client. -/
theorem c2_provisioning_calls_witness :
    (function_handler (some ⟨"a@b.com", "password123", "t1", none⟩)
        (some "pool") "uid" okClient).2 =
      [createUserCall "pool" "uid" "a@b.com" "password123" "t1" "User",
       setPasswordCall "pool" "uid" "password123"] :=
  c2_provisioning_calls "pool" "uid" okClient
    ⟨"a@b.com", "password123", "t1", none⟩ (by decide)

/-- Claim C3: on a valid input, if `admin_create_user` fails the handler
returns 500 REGISTRATION_FAILED, the call list is exactly the one
`admin_create_user` request, and no `admin_set_user_password` request is
ever issued in that invocation. -/
theorem c3_create_user_failure (pool uuid e : String) (client : CognitoClient)
    (r : RegisterUserRequest) (hv : passesValidation r = true)
    (hf : client.respond (createUserCall pool uuid r.email r.password
      r.tenant_id (r.user_role.getD "User")) = .error e) :
    ((function_handler (some r) (some pool) uuid client).1 =
      .ok (create_error_response 500 "REGISTRATION_FAILED" e))
    ∧ ((function_handler (some r) (some pool) uuid client).2 =
      [createUserCall pool uuid r.email r.password r.tenant_id (r.user_role.getD "User")])
    ∧ (∀ c ∈ (function_handler (some r) (some pool) uuid client).2,
        c.isSetPassword = false) := by
  have hreg := register_user_in_cognito_create_error client pool uuid r.email
    r.password r.tenant_id (r.user_role.getD "User") e hf
  rw [function_handler_valid r (some pool) uuid client hv]
  dsimp only
  rw [hreg]
  refine ⟨rfl, rfl, ?_⟩
  intro c hc
  simp at hc
  subst hc
  rfl

/-- Witness for C3: failing client on a concrete valid request. -/
theorem c3_create_user_failure_witness :
    ((function_handler (some ⟨"a@b.com", "password123", "t1", none⟩)
        (some "pool") "uid" failClient).1 =
      .ok (create_error_response 500 "REGISTRATION_FAILED" "provider failure"))
    ∧ ((function_handler (some ⟨"a@b.com", "password123", "t1", none⟩)
        (some "pool") "uid" failClient).2 =
      [createUserCall "pool" "uid" "a@b.com" "password123" "t1" "User"]) :=
  ⟨(c3_create_user_failure "pool" "uid" "provider failure" failClient
      ⟨"a@b.com", "password123", "t1", none⟩ (by decide) rfl).1,
   (c3_create_user_failure "pool" "uid" "provider failure" failClient
      ⟨"a@b.com", "password123", "t1", none⟩ (by decide) rfl).2.1⟩

/-- Claim C4: on a valid input, if `admin_create_user` succeeds and
`admin_set_user_password` fails, the handler returns 500 REGISTRATION_FAILED
carrying the underlying provider error message; the call list is exactly the
two requests in order, and no compensating `admin_delete_user` (rollback)
request is ever issued. -/
theorem c4_set_password_failure (pool uuid e : String) (client : CognitoClient)
    (r : RegisterUserRequest) (hv : passesValidation r = true)
    (hc : client.respond (createUserCall pool uuid r.email r.password
      r.tenant_id (r.user_role.getD "User")) = .ok ())
    (hs : client.respond (setPasswordCall pool uuid r.password) = .error e) :
    ((function_handler (some r) (some pool) uuid client).1 =
      .ok (create_error_response 500 "REGISTRATION_FAILED" e))
    ∧ ((function_handler (some r) (some pool) uuid client).2 =
      [createUserCall pool uuid r.email r.password r.tenant_id (r.user_role.getD "User"),
       setPasswordCall pool uuid r.password])
    ∧ (∀ c ∈ (function_handler (some r) (some pool) uuid client).2,
        c.isDeleteUser = false) := by
  have hreg := register_user_in_cognito_set_error client pool uuid r.email
    r.password r.tenant_id (r.user_role.getD "User") e hc hs
  rw [function_handler_valid r (some pool) uuid client hv]
  dsimp only
  rw [hreg]
  refine ⟨rfl, rfl, ?_⟩
  intro c hmem
  simp at hmem
  rcases hmem with h | h <;> subst h <;> rfl

/-- Witness for C4: a client that accepts create-user but fails set-password
on a concrete valid request. -/
theorem c4_set_password_failure_witness :
    ((function_handler (some ⟨"a@b.com", "password123", "t1", none⟩)
        (some "pool") "uid" setFailClient).1 =
      .ok (create_error_response 500 "REGISTRATION_FAILED" "set password failure"))
    ∧ ((function_handler (some ⟨"a@b.com", "password123", "t1", none⟩)
        (some "pool") "uid" setFailClient).2 =
      [createUserCall "pool" "uid" "a@b.com" "password123" "t1" "User",
       setPasswordCall "pool" "uid" "password123"]) :=
  ⟨(c4_set_password_failure "pool" "uid" "set password failure" setFailClient
      ⟨"a@b.com", "password123", "t1", none⟩ (by decide) rfl rfl).1,
   (c4_set_password_failure "pool" "uid" "set password failure" setFailClient
      ⟨"a@b.com", "password123", "t1", none⟩ (by decide) rfl rfl).2.1⟩

/-- Claim C5: on a valid input where both provider calls succeed, the handler
returns HTTP 201 with header `content-type: application/json` and a body that
is the serialized `RegisterUserResponse` holding the generated user id and the
success message. -/
theorem c5_success_response (pool uuid : String) (client : CognitoClient)
    (r : RegisterUserRequest) (hv : passesValidation r = true)
    (hc : client.respond (createUserCall pool uuid r.email r.password
      r.tenant_id (r.user_role.getD "User")) = .ok ())
    (hs : client.respond (setPasswordCall pool uuid r.password) = .ok ()) :
    (function_handler (some r) (some pool) uuid client).1 =
      .ok ⟨201, "application/json", .success ⟨uuid, successMessage⟩⟩ := by
  have hreg := register_user_in_cognito_ok client pool uuid r.email
    r.password r.tenant_id (r.user_role.getD "User") hc hs
  rw [function_handler_valid r (some pool) uuid client hv]
  dsimp only
  rw [hreg]
  rfl

/-- Witness for C5: succeeding client on a concrete valid request. -/
theorem c5_success_response_witness :
    (function_handler (some ⟨"a@b.com", "password123", "t1", none⟩)
        (some "pool") "uid" okClient).1 =
      .ok ⟨201, "application/json", .success ⟨"uid", successMessage⟩⟩ :=
  c5_success_response "pool" "uid" okClient
    ⟨"a@b.com", "password123", "t1", none⟩ (by decide) rfl rfl

/-- Claim C7: on a request passing validation, if the USER_POOL_ID
environment variable is absent the invocation returns the configuration
error (the Rust function returns `Err`), no provider call is issued, and no
201/400/500 HTTP response is produced. -/
theorem c7_missing_pool_id (uuid : String) (client : CognitoClient)
    (r : RegisterUserRequest) (hv : passesValidation r = true) :
    function_handler (some r) none uuid client =
      (.error "USER_POOL_ID environment variable not set", []) := by
  rw [function_handler_valid r none uuid client hv]

/-- Witness for C7 at a concrete valid request. -/
theorem c7_missing_pool_id_witness :
    function_handler (some ⟨"a@b.com", "password123", "t1", none⟩) none "uid" okClient =
      (.error "USER_POOL_ID environment variable not set", []) :=
  c7_missing_pool_id "uid" okClient ⟨"a@b.com", "password123", "t1", none⟩ (by decide)

/-- Claim C8: on a valid request, the `admin_create_user` request issued
first uses "User" as the user_role attribute value when the request omits
user_role, and the request's own value unchanged when it is present. -/
theorem c8_user_role_default (pool uuid : String) (client : CognitoClient)
    (r : RegisterUserRequest) (hv : passesValidation r = true) :
    (r.user_role = none →
      (function_handler (some r) (some pool) uuid client).2.head? =
        some (createUserCall pool uuid r.email r.password r.tenant_id "User"))
    ∧ (∀ role : String, r.user_role = some role →
      (function_handler (some r) (some pool) uuid client).2.head? =
        some (createUserCall pool uuid r.email r.password r.tenant_id role)) := by
  have htr := function_handler_valid_trace pool uuid client r hv
  constructor
  · intro hnone
    rw [htr]
    simp [hnone]
  · intro role hrole
    rw [htr]
    simp [hrole]

/-- Witness for C8: one request omitting user_role, one carrying "Admin". -/
theorem c8_user_role_default_witness :
    ((function_handler (some ⟨"a@b.com", "password123", "t1", none⟩)
        (some "pool") "uid" okClient).2.head? =
      some (createUserCall "pool" "uid" "a@b.com" "password123" "t1" "User"))
    ∧ ((function_handler (some ⟨"a@b.com", "password123", "t1", some "Admin"⟩)
        (some "pool") "uid" okClient).2.head? =
      some (createUserCall "pool" "uid" "a@b.com" "password123" "t1" "Admin")) :=
  ⟨(c8_user_role_default "pool" "uid" okClient
      ⟨"a@b.com", "password123", "t1", none⟩ (by decide)).1 rfl,
   (c8_user_role_default "pool" "uid" okClient
      ⟨"a@b.com", "password123", "t1", some "Admin"⟩ (by decide)).2 "Admin" rfl⟩

/-- Claim C9: on a successful invocation the same generated uuid is the
username of the `admin_create_user` request, the username of the
`admin_set_user_password` request, and the user_id of the 201 response body;
whenever the uuid differs from the request email, the provider username is
therefore not the email. -/
theorem c9_uuid_threading (pool uuid : String) (client : CognitoClient)
    (r : RegisterUserRequest) (hv : passesValidation r = true)
    (hc : client.respond (createUserCall pool uuid r.email r.password
      r.tenant_id (r.user_role.getD "User")) = .ok ())
    (hs : client.respond (setPasswordCall pool uuid r.password) = .ok ()) :
    ((function_handler (some r) (some pool) uuid client).1 =
      .ok (create_success_response ⟨uuid, successMessage⟩))
    ∧ ((function_handler (some r) (some pool) uuid client).2 =
      [createUserCall pool uuid r.email r.password r.tenant_id (r.user_role.getD "User"),
       setPasswordCall pool uuid r.password])
    ∧ ((createUserCall pool uuid r.email r.password r.tenant_id
        (r.user_role.getD "User")).username = uuid)
    ∧ ((setPasswordCall pool uuid r.password).username = uuid)
    ∧ (uuid ≠ r.email →
      (createUserCall pool uuid r.email r.password r.tenant_id
        (r.user_role.getD "User")).username ≠ r.email) := by
  have hreg := register_user_in_cognito_ok client pool uuid r.email
    r.password r.tenant_id (r.user_role.getD "User") hc hs
  rw [function_handler_valid r (some pool) uuid client hv]
  dsimp only
  rw [hreg]
  exact ⟨rfl, rfl, rfl, rfl, fun h => h⟩

/-- Witness for C9 at a concrete valid request with a uuid distinct from the
email. -/
theorem c9_uuid_threading_witness :
    ((function_handler (some ⟨"a@b.com", "password123", "t1", none⟩)
        (some "pool") "uid" okClient).1 =
      .ok (create_success_response ⟨"uid", successMessage⟩))
    ∧ ((createUserCall "pool" "uid" "a@b.com" "password123" "t1" "User").username ≠ "a@b.com") :=
  ⟨(c9_uuid_threading "pool" "uid" okClient
      ⟨"a@b.com", "password123", "t1", none⟩ (by decide) rfl rfl).1,
   (c9_uuid_threading "pool" "uid" okClient
      ⟨"a@b.com", "password123", "t1", none⟩ (by decide) rfl rfl).2.2.2.2 (by decide)⟩

/-- Claim C6 counterexample: the request with email "a@b", tenant_id "t1"
and password "éééé" has a password of 4 < 8 characters, so the claim demands
400 VALIDATION_ERROR; but Rust `String::len` counts UTF-8 bytes and "éééé"
is 8 bytes, so the handler accepts it and (with the pool id set and a
succeeding provider) returns the 201 success response instead. -/
theorem c6_password_chars_counterexample :
    (("éééé" : String).length < 8)
    ∧ (("éééé" : String).data.isEmpty = false)
    ∧ (("a@b" : String).data.contains '@' = true)
    ∧ ((function_handler (some ⟨"a@b", "éééé", "t1", none⟩)
        (some "pool") "uid" okClient).1 =
      .ok (create_success_response ⟨"uid", successMessage⟩)) :=
  ⟨by decide, by decide, by decide, rfl⟩

/-- Claim C6 amended: for every parseable request with non-empty fields and
an email containing '@', if the password is shorter than 8 UTF-8 BYTES the
handler returns 400 VALIDATION_ERROR, and if the password is at least 8
UTF-8 bytes this check passes: any HTTP response then produced has a status
other than 400. -/
theorem c6_password_byte_length (env : Option String) (uuid : String)
    (client : CognitoClient) (r : RegisterUserRequest)
    (h1 : (r.email.data.isEmpty || r.password.data.isEmpty || r.tenant_id.data.isEmpty) = false)
    (h2 : r.email.data.contains '@' = true) :
    (r.password.utf8ByteSize < 8 →
      (function_handler (some r) env uuid client).1 =
        .ok (create_error_response 400 "VALIDATION_ERROR"
          "Password must be at least 8 characters long"))
    ∧ (8 ≤ r.password.utf8ByteSize →
      ∀ resp : Response, (function_handler (some r) env uuid client).1 = .ok resp →
        resp.status ≠ 400) := by
  have h2m : '@' ∈ r.email.data := by simpa using h2
  constructor
  · intro h3
    simp [function_handler, h1, h2m, h3]
  · intro h8 resp hresp
    have h3 : ¬ r.password.utf8ByteSize < 8 := not_lt.mpr h8
    have hv : passesValidation r = true := by
      simp [passesValidation, h1, h2m, h3]
    rw [function_handler_valid r env uuid client hv] at hresp
    cases env with
    | none => simp at hresp
    | some pool =>
      dsimp only at hresp
      rcases hreg : register_user_in_cognito client pool uuid r.email r.password
          r.tenant_id (r.user_role.getD "User") with ⟨res, tr⟩
      rw [hreg] at hresp
      cases res with
      | ok u =>
        simp only [create_success_response, Except.ok.injEq] at hresp
        rw [← hresp]
        show (201 : Nat) ≠ 400
        decide
      | error e =>
        simp only [create_error_response, Except.ok.injEq] at hresp
        rw [← hresp]
        show (500 : Nat) ≠ 400
        decide

/-- Witness for the amended C6: a 7-byte password is rejected, and the 201
response produced for an 11-byte password has status other than 400. -/
theorem c6_password_byte_length_witness :
    ((function_handler (some ⟨"a@b.com", "seven77", "t1", none⟩)
        (some "pool") "uid" okClient).1 =
      .ok (create_error_response 400 "VALIDATION_ERROR"
        "Password must be at least 8 characters long"))
    ∧ ((⟨201, "application/json",
        .success ⟨"uid", successMessage⟩⟩ : Response).status ≠ 400) :=
  ⟨(c6_password_byte_length (some "pool") "uid" okClient
      ⟨"a@b.com", "seven77", "t1", none⟩ (by decide) (by decide)).1 (by decide),
   (c6_password_byte_length (some "pool") "uid" okClient
      ⟨"a@b.com", "password123", "t1", none⟩ (by decide) (by decide)).2 (by decide)
      ⟨201, "application/json", .success ⟨"uid", successMessage⟩⟩ rfl⟩

/-- Claim C10: whenever the handler produces a 400 response, it issued no
provider call, and the whole outcome is independent of the USER_POOL_ID
environment value, of the generated uuid and of the provider client — a 400
outcome leaves all external state untouched. -/
theorem c10_early_400_no_side_effects (body : Option RegisterUserRequest)
    (env : Option String) (uuid : String) (client : CognitoClient)
    (resp : Response)
    (h : (function_handler body env uuid client).1 = .ok resp)
    (h400 : resp.status = 400) :
    ((function_handler body env uuid client).2 = [])
    ∧ (∀ (env2 : Option String) (uuid2 : String) (client2 : CognitoClient),
        function_handler body env2 uuid2 client2 = function_handler body env uuid client) := by
  cases body with
  | none => exact ⟨rfl, fun _ _ _ => rfl⟩
  | some r =>
    by_cases h1 : (r.email.data.isEmpty || r.password.data.isEmpty || r.tenant_id.data.isEmpty) = true
    · refine ⟨by simp [function_handler, h1], ?_⟩
      intro env2 uuid2 client2
      simp [function_handler, h1]
    · have h1f : (r.email.data.isEmpty || r.password.data.isEmpty || r.tenant_id.data.isEmpty) = false := by
        simpa using h1
      by_cases h2 : r.email.data.contains '@' = true
      · have h2m : '@' ∈ r.email.data := by simpa using h2
        by_cases h3 : r.password.utf8ByteSize < 8
        · refine ⟨by simp [function_handler, h1f, h2m, h3], ?_⟩
          intro env2 uuid2 client2
          simp [function_handler, h1f, h2m, h3]
        · exfalso
          have hv : passesValidation r = true := by
            simp [passesValidation, h1f, h2m, h3]
          rw [function_handler_valid r env uuid client hv] at h
          cases env with
          | none => simp at h
          | some pool =>
            dsimp only at h
            rcases hreg : register_user_in_cognito client pool uuid r.email r.password
                r.tenant_id (r.user_role.getD "User") with ⟨res, tr⟩
            rw [hreg] at h
            cases res with
            | ok u =>
              simp only [create_success_response, Except.ok.injEq] at h
              rw [← h] at h400
              simp at h400
            | error e =>
              simp only [create_error_response, Except.ok.injEq] at h
              rw [← h] at h400
              simp at h400
      · have h2n : '@' ∉ r.email.data := by
          simpa using h2
        refine ⟨by simp [function_handler, h1f, h2n], ?_⟩
        intro env2 uuid2 client2
        simp [function_handler, h1f, h2n]

/-- Witness for C10: the unparseable-body 400 at concrete inputs; the
outcome is unchanged when the environment, uuid and client all change. -/
theorem c10_early_400_no_side_effects_witness :
    ((function_handler none none "uid" okClient).2 = [])
    ∧ (function_handler none (some "pool") "other" failClient =
        function_handler none none "uid" okClient) :=
  ⟨(c10_early_400_no_side_effects none none "uid" okClient
      (create_error_response 400 "INVALID_REQUEST" "Invalid request body") rfl rfl).1,
   (c10_early_400_no_side_effects none none "uid" okClient
      (create_error_response 400 "INVALID_REQUEST" "Invalid request body") rfl rfl).2
      (some "pool") "other" failClient⟩

end RegisterUser
